import Mathlib

/-!
Shallow embedding of the phoenix service-lifecycle orchestrator.

Go `error` values are modelled by their message strings; a possibly-nil
error is `Option Err`.  Concurrency is modelled by explicit schedules:
a schedule lists the order in which concurrently running goroutines reach
their observable interaction points (channel sends, waitgroup completion,
mutex-guarded appends).
-/

namespace Phoenix

/-- Errors are modelled by their message strings; `none` is Go's nil error. -/
abbrev Err := String

/-- `multiError` from part_000 lines 165-168: a collected list of errors.
The mutex only serialises concurrent appends; the serialisation order is the
`arrival` schedule passed to the functions below. -/
structure multiError where
  errors : List Err
deriving DecidableEq

/-- `multiError.AddError`, part_000 lines 170-176: no-op on nil, else append. -/
def multiError.AddError (m : multiError) (err : Option Err) : multiError :=
  match err with
  | none => m
  | some e => ⟨m.errors ++ [e]⟩

/-- `multiError.Error`, part_000 lines 178-187: newline-join of all messages. -/
def multiError.Error (m : multiError) : Err :=
  String.intercalate "\n" m.errors

/-- `multiError.AsError`, part_000 lines 189-197: nil when empty, otherwise the
aggregate error (observed through its `Error` message). -/
def multiError.AsError (m : multiError) : Option Err :=
  if m.errors = [] then none else some m.Error

/-- A fold of successive `AddError` calls, modelling a sequence of callers. -/
def multiError.AddAll (m : multiError) (es : List (Option Err)) : multiError :=
  es.foldl multiError.AddError m

/-- Behaviour of a service's `Stop()` call: it either returns (possibly an
error) or blocks past the 5-second bound in part_000 line 140. -/
inductive StopBehavior
  | returns (e : Option Err)
  | hangs
deriving DecidableEq

/-- A registered `Service` (part_000 lines 14-44), described by the outcomes
of its calls: `onStart = some r` means the unit implements the undocumented
`startHandler` capability and `OnStart` returns `r`; `none` means the
capability is absent.  `startResult` is what `Start()` returns,
`hasOnStop` whether the unit implements `stopHandler`, `reloadable` whether
it implements `Reloadable` and what `Reload()` then returns. -/
structure Service where
  onStart : Option (Option Err)
  startResult : Option Err
  hasOnStop : Bool
  stopBehavior : StopBehavior
  reloadable : Option (Option Err)
deriving DecidableEq

instance : Inhabited Service :=
  ⟨⟨none, none, false, StopBehavior.hangs, none⟩⟩

/-- `serviceManager`, part_000 lines 46-49: the ordered registry. -/
structure serviceManager where
  services : List Service
deriving DecidableEq

/-- `serviceManager.AddService`, part_000 lines 58-60: append to the registry. -/
def serviceManager.AddService (manager : serviceManager) (service : Service) : serviceManager :=
  ⟨manager.services ++ [service]⟩

/-- Observable outcome of one unit-task goroutine (part_000 lines 72-88). -/
structure TaskRun where
  startCalled : Bool
  onStopCalled : Bool
  reported : Option Err
deriving DecidableEq

/-- The body of the goroutine spawned per service in `serviceManager.Start`
(part_000 lines 72-88): if the `startHandler` capability is present and
`OnStart` errors, that error is sent on the fail channel and `Start` is never
called; otherwise `Start()` runs, an error is sent on the fail channel, and
on clean termination `OnStop` is invoked when the capability is present. -/
def runTask (srv : Service) : TaskRun :=
  match srv.onStart with
  | some (some e) => ⟨false, false, some e⟩
  | _ =>
    match srv.startResult with
    | some e => ⟨true, false, some e⟩
    | none => ⟨true, srv.hasOnStop, none⟩

/-- The error, if any, a unit-task reports on the unbuffered fail channel. -/
def reportOf (svcs : List Service) (i : Nat) : Option Err :=
  (runTask (svcs.getD i default)).reported

/-- Outcome of one `serviceManager.Start` run under a given schedule.
`spawned` lists the unit-tasks started, in spawn order; `consumed` the
completion events the select loop observed before returning; `continued`
the tasks still running at return time that later complete cleanly;
`panicked` the tasks still running at return time that later try to report
an error: their send is on the fail channel that line 103 has closed, which
is a run-time panic in Go, not an independent continuation. -/
structure StartRun where
  result : Option Err
  spawned : List Nat
  consumed : List Nat
  continued : List Nat
  panicked : List Nat
deriving DecidableEq

/-- The select loop of part_000 lines 91-106 under schedule `sched`: events
arrive in schedule order; a clean completion only decrements the waitgroup,
the first reported error is received from the unbuffered fail channel and
returned after `close(fail)`.  Tasks scheduled later keep running: clean ones
finish, but a later reporting task sends on the now-closed channel. -/
def startLoop (svcs : List Service) : List Nat → StartRun
  | [] => ⟨none, [], [], [], []⟩
  | i :: rest =>
    match reportOf svcs i with
    | some e =>
      ⟨some e, [], [i],
        rest.filter (fun j => decide (reportOf svcs j = none)),
        rest.filter (fun j => decide (¬reportOf svcs j = none))⟩
    | none =>
      let r := startLoop svcs rest
      ⟨r.result, [], i :: r.consumed, r.continued, r.panicked⟩

/-- `serviceManager.Start`, part_000 lines 62-107: empty registry fails with
the setup error before spawning anything; otherwise one goroutine is spawned
per registered unit (in registration order) and the select loop runs. -/
def serviceManager.Start (manager : serviceManager) (sched : List Nat) : StartRun :=
  if manager.services.length ≤ 0 then
    ⟨some "No services were registered", [], [], [], []⟩
  else
    let r := startLoop manager.services sched
    ⟨r.result, List.range manager.services.length, r.consumed, r.continued, r.panicked⟩

/-- Result of the per-unit watcher goroutine in `serviceManager.Stop`
(part_000 lines 135-144): the unit's own `Stop()` result if it arrives within
the 5-second bound, else the synthetic timeout error. -/
def stopResult : StopBehavior → Option Err
  | .returns e => e
  | .hangs => some "Timed out waiting for service to stop"

/-- The spawn order of the stop attempts, part_000 line 127: the loop walks
the registry from the last registered unit down to the first. -/
def serviceManager.stopSpawnOrder (manager : serviceManager) : List Nat :=
  (List.range manager.services.length).reverse

/-- The `faults` aggregate built by `serviceManager.Stop` (part_000 lines
125-147): each watcher adds its unit's result under the mutex; `arrival` is
the serialisation order of those adds. -/
def stopFaults (svcs : List Service) (arrival : List Nat) : multiError :=
  arrival.foldl (fun m i => m.AddError (stopResult ((svcs.getD i default).stopBehavior))) ⟨[]⟩

/-- `serviceManager.Stop`, part_000 lines 124-149: wait for every watcher,
then return the aggregate. -/
def serviceManager.Stop (manager : serviceManager) (arrival : List Nat) : Option Err :=
  (stopFaults manager.services arrival).AsError

/-- The reload loop of part_000 lines 114-119, threading the registry index:
returns the `failedToReload` aggregate together with the indices of the units
whose `Reload()` was invoked, in invocation order. -/
def reloadLoop : Nat → List Service → multiError → multiError × List Nat
  | _, [], m => (m, [])
  | i, s :: rest, m =>
    match s.reloadable with
    | some r =>
      let p := reloadLoop (i + 1) rest (m.AddError r)
      (p.1, i :: p.2)
    | none => reloadLoop (i + 1) rest m

/-- `serviceManager.Reload`, part_000 lines 109-122: abort with the config
reload error if any (`configErr` models the external `config.load()`),
otherwise run the loop over all units and return the aggregate. -/
def serviceManager.Reload (manager : serviceManager) (configErr : Option Err) : Option Err :=
  match configErr with
  | some e => some e
  | none => (reloadLoop 0 manager.services ⟨[]⟩).1.AsError

/-- The units whose `Reload()` is invoked by `serviceManager.Reload`. -/
def serviceManager.reloadInvoked (manager : serviceManager) (configErr : Option Err) : List Nat :=
  match configErr with
  | some _ => []
  | none => (reloadLoop 0 manager.services ⟨[]⟩).2

/-- The `runtime` of part_006 lines 582-588, restricted to its callback list.
Each callback is described by what its start half returns; the stop half is
observed through the invocation lists below. -/
structure runtime where
  callbacks : List (Option Err)
deriving DecidableEq

/-- Outcome of one `runtime.Start` run: the returned error, the indices of
callbacks whose start half ran (in invocation order), the indices whose stop
half ran during the deferred unwind (in invocation order), and whether
`serviceManager.Start` was delegated to. -/
structure RTStartRun where
  result : Option Err
  startsInvoked : List Nat
  stopsInvoked : List Nat
  smStartInvoked : Bool
deriving DecidableEq

/-- The loop of part_006 lines 667-673 plus the deferred unwind of lines
661-665: `stack` is the `stopCallbacks` slice, grown by prepending the
just-succeeded callback, and the deferred loop invokes it front to back. -/
def rtStartLoop (smResult : Option Err) : Nat → List (Option Err) → List Nat → List Nat → RTStartRun
  | _, [], starts, stack => ⟨smResult, starts.reverse, stack, true⟩
  | i, startErr :: rest, starts, stack =>
    match startErr with
    | some e => ⟨some e, (i :: starts).reverse, stack, false⟩
    | none => rtStartLoop smResult (i + 1) rest (i :: starts) (i :: stack)

/-- `runtime.Start`, part_006 lines 659-676: run the callback starts in
registration order; on the first failure return it (after unwinding), else
delegate to `serviceManager.Start`, whose result is `smResult`; in both
cases the deferred unwind runs the collected stop halves. -/
def runtime.Start (rt : runtime) (smResult : Option Err) : RTStartRun :=
  rtStartLoop smResult 0 rt.callbacks [] []

/-- A delivered process signal, part_006 lines 621-640: `interrupt` and
`terminate` form the terminate class, `hangup r` is a reload request whose
`runtime.Reload()` call returns `r`. -/
inductive SigEvent
  | interrupt
  | terminate
  | hangup (reloadResult : Option Err)
deriving DecidableEq

/-- An observable lifecycle action triggered by the signal goroutine. -/
inductive SigAction
  | stopAll
  | reloadAll
deriving DecidableEq

/-- The signal goroutine of part_006 lines 625-641: a terminate-class signal
triggers `Stop()` and breaks the loop (later signals are not handled); a
hangup triggers `Reload()`, and additionally `Stop()` when the reload
errored. -/
def signalLoop : List SigEvent → List SigAction
  | [] => []
  | .interrupt :: _ => [.stopAll]
  | .terminate :: _ => [.stopAll]
  | .hangup r :: rest =>
    match r with
    | some _ => .reloadAll :: .stopAll :: signalLoop rest
    | none => .reloadAll :: signalLoop rest

/-- Observable outcome of `runtime.Run`. -/
structure RunModel where
  actions : List SigAction
  result : Option Err
  loggedError : Bool
  deregistered : Bool
deriving DecidableEq

/-- `runtime.Run`, part_006 lines 614-645: install the signal handler
(deregistered by defer on the way out), run the signal goroutine over the
delivered signals, invoke the caller-supplied run function and return its
error, logging it when non-nil (the deferred block of lines 615-619). -/
def runtime.Run (bootErr : Option Err) (sigs : List SigEvent) : RunModel :=
  ⟨signalLoop sigs, bootErr, bootErr.isSome, true⟩

/-- `container`, container.go lines 38-43, restricted to its metadata. -/
structure container where
  name : String
  version : String
deriving DecidableEq

/-- `container.Name`, container.go lines 77-82. -/
def container.Name (c : container) : String :=
  if c.name = "" then "app" else c.name

/-- `container.Version`, container.go lines 84-89. -/
def container.Version (c : container) : String :=
  if c.version = "" then "unreleased" else c.version

/-- `server`, server.go lines 57-63, restricted to the current-runtime slot;
a runtime instance is identified by an opaque token. -/
structure server where
  currentRuntime : Option Nat
deriving DecidableEq

/-- Outcome of one `server.Run` call: the server state at return, the
returned error, and whether the already-running guard rejected the call. -/
structure ServerRunResult where
  state : server
  result : Option Err
  rejectedAlreadyRunning : Bool
deriving DecidableEq

/-- `server.Run`, server.go lines 104-180: reject when a runtime is already
current; otherwise build the container (`containerResult` models
`newContainer`, whose failure is returned without touching the state), store
the new runtime in the current slot and return what `runtime.Run` returned
(the slot stays occupied afterwards). -/
def server.Run (s : server) (containerResult : Except Err Nat) (runResult : Option Err) : ServerRunResult :=
  match s.currentRuntime with
  | some _ => ⟨s, some "server is already running", true⟩
  | none =>
    match containerResult with
    | .error e => ⟨s, some e, false⟩
    | .ok rt => ⟨⟨some rt⟩, runResult, false⟩

/-- `server.Stop`, server.go lines 182-191: reject when no runtime is
current; otherwise stop it (`stopResult` models `runtime.Stop()`), clear the
slot and return the stop result. -/
def server.Stop (s : server) (stopResult : Option Err) : server × Option Err :=
  match s.currentRuntime with
  | none => (s, some "server is not currently running")
  | some _ => (⟨none⟩, stopResult)

/-- Two services whose `Start()` both fail, exercising the close of the fail
channel in `serviceManager.Start`. -/
def twoFailingMgr : serviceManager :=
  ⟨[⟨none, some "boom1", false, StopBehavior.hangs, none⟩,
    ⟨none, some "boom2", false, StopBehavior.hangs, none⟩]⟩

/-- One unit stopping cleanly and one unit whose stop hangs. -/
def stopWitnessMgr : serviceManager :=
  ⟨[⟨none, none, false, StopBehavior.returns none, none⟩,
    ⟨none, none, false, StopBehavior.hangs, none⟩]⟩

/-- A reloadable service answering `Reload()` with `r`. -/
def reloadSvc (r : Option Err) : Service :=
  ⟨none, none, false, StopBehavior.returns none, some r⟩

/-- Five reloadable units of which exactly the second and fourth fail. -/
def fiveReloadMgr : serviceManager :=
  ⟨[reloadSvc none, reloadSvc (some "e1"), reloadSvc none,
    reloadSvc (some "e2"), reloadSvc none]⟩

/-- The `errors` list of a fold of `AddError` calls: the non-nil arguments,
appended in arrival order. -/
theorem multiError_foldl_errors (f : Nat → Option Err) :
    ∀ (l : List Nat) (m : multiError),
      (l.foldl (fun m i => m.AddError (f i)) m).errors = m.errors ++ l.filterMap f := by
  intro l
  induction l with
  | nil => intro m; simp
  | cons i rest ih =>
    intro m
    rw [List.foldl_cons, ih]
    cases h : f i <;> simp [multiError.AddError, h, List.filterMap_cons]

/-- `AsError` answers nil exactly on the empty collection. -/
theorem AsError_eq_none_iff (m : multiError) : m.AsError = none ↔ m.errors = [] := by
  by_cases h : m.errors = [] <;> simp [multiError.AsError, h]

/-- The `errors` list of an `AddAll` fold over an arbitrary argument list. -/
theorem AddAll_errors :
    ∀ (es : List (Option Err)) (m : multiError),
      (m.AddAll es).errors = m.errors ++ es.filterMap id := by
  intro es
  induction es with
  | nil => intro m; simp [multiError.AddAll]
  | cons e rest ih =>
    intro m
    rw [multiError.AddAll, List.foldl_cons]
    have := ih (m.AddError e)
    rw [multiError.AddAll] at this
    rw [this]
    cases e <;> simp [multiError.AddError, List.filterMap_cons]

/-- Claim C4: `AddError` is a no-op exactly on nil and otherwise appends; a
fold of `AddError` calls collects exactly the non-nil arguments in arrival
order; `AsError` is nil iff the collection is empty (so nil on a fresh
aggregator), and otherwise is an error whose message is the newline-join of
the collected messages in arrival order. -/
theorem C4_multi_error :
    (∀ m : multiError, m.AddError none = m) ∧
    (∀ (m : multiError) (e : Err), (m.AddError (some e)).errors = m.errors ++ [e]) ∧
    (∀ es : List (Option Err), (multiError.AddAll ⟨[]⟩ es).errors = es.filterMap id) ∧
    (∀ m : multiError, m.AsError = none ↔ m.errors = []) ∧
    ((⟨[]⟩ : multiError).AsError = none) ∧
    (∀ m : multiError, m.errors ≠ [] → m.AsError = some (String.intercalate "\n" m.errors)) := by
  refine ⟨fun m => rfl, fun m e => rfl, ?_, AsError_eq_none_iff, rfl, ?_⟩
  · intro es
    rw [AddAll_errors]
    rfl
  · intro m h
    simp [multiError.AsError, multiError.Error, h]

/-- Witness for C4 at a concrete two-error aggregator. -/
theorem C4_multi_error_witness :
    multiError.AsError ⟨["a", "b"]⟩ = some "a\nb" :=
  C4_multi_error.2.2.2.2.2 ⟨["a", "b"]⟩ (by decide)

/-- Claim C5: within `serviceManager.Start`, a unit whose `OnStart` errors has
that error reported and `Start` never called; otherwise `Start` runs, its
error (if any) is reported, and `OnStop` is invoked exactly when the unit
implements it and `Start` returned nil; a unit lacking the capabilities is
processed without error. -/
theorem C5_unit_task (s : Service) :
    (∀ e, s.onStart = some (some e) →
        (runTask s).reported = some e ∧ (runTask s).startCalled = false ∧
          (runTask s).onStopCalled = false) ∧
    ((s.onStart = none ∨ s.onStart = some none) →
        (runTask s).startCalled = true ∧ (runTask s).reported = s.startResult ∧
          ((runTask s).onStopCalled = true ↔ (s.hasOnStop = true ∧ s.startResult = none))) ∧
    (s.onStart = none → s.startResult = none → (runTask s).reported = none) := by
  obtain ⟨os, sr, hs, sb, rl⟩ := s
  refine ⟨?_, ?_, ?_⟩
  · intro e he
    subst he
    simp [runTask]
  · intro h
    rcases h with h | h <;> subst h <;> cases sr <;> simp [runTask]
  · intro h1 h2
    subst h1
    subst h2
    simp [runTask]

/-- Witness for C5: a failing `OnStart` is reported with `Start` skipped, and
a cleanly terminating unit with the stop capability has `OnStop` invoked. -/
theorem C5_unit_task_witness :
    ((runTask ⟨some (some "hookfail"), some "x", true, StopBehavior.hangs, none⟩).reported
        = some "hookfail" ∧
      (runTask ⟨some (some "hookfail"), some "x", true, StopBehavior.hangs, none⟩).startCalled
        = false) ∧
    (runTask ⟨none, none, true, StopBehavior.hangs, none⟩).onStopCalled = true := by
  refine ⟨⟨?_, ?_⟩, ?_⟩
  · exact ((C5_unit_task ⟨some (some "hookfail"), some "x", true, StopBehavior.hangs, none⟩).1
      "hookfail" rfl).1
  · exact ((C5_unit_task ⟨some (some "hookfail"), some "x", true, StopBehavior.hangs, none⟩).1
      "hookfail" rfl).2.1
  · exact ((C5_unit_task ⟨none, none, true, StopBehavior.hangs, none⟩).2.1
      (Or.inl rfl)).2.2.mpr ⟨rfl, rfl⟩

/-- Claim C2: `Stop` spawns the stop attempts in strict reverse registration
order; each unit contributes its own stop error, or the synthetic timeout
error when its stop hangs past the bound; every such error is collected into
the single aggregate no matter the arrival order of the concurrent adds, and
the call returns nil exactly when no unit contributed an error. -/
theorem C2_stop_aggregate (mgr : serviceManager) (arrival : List Nat)
    (hperm : arrival.Perm mgr.stopSpawnOrder) :
    mgr.stopSpawnOrder = (List.range mgr.services.length).reverse ∧
    (stopFaults mgr.services arrival).errors
      = arrival.filterMap (fun i => stopResult ((mgr.services.getD i default).stopBehavior)) ∧
    (∀ i, i < mgr.services.length →
      ∀ e, stopResult ((mgr.services.getD i default).stopBehavior) = some e →
        e ∈ (stopFaults mgr.services arrival).errors) ∧
    (∀ i, i < mgr.services.length →
      (mgr.services.getD i default).stopBehavior = StopBehavior.hangs →
        ("Timed out waiting for service to stop" : Err)
          ∈ (stopFaults mgr.services arrival).errors) ∧
    (mgr.Stop arrival = none ↔
      ∀ i, i < mgr.services.length →
        stopResult ((mgr.services.getD i default).stopBehavior) = none) := by
  have hmemArr : ∀ i, i < mgr.services.length → i ∈ arrival := by
    intro i hi
    refine hperm.mem_iff.mpr ?_
    rw [serviceManager.stopSpawnOrder, List.mem_reverse, List.mem_range]
    exact hi
  have herrs : (stopFaults mgr.services arrival).errors
      = arrival.filterMap (fun i => stopResult ((mgr.services.getD i default).stopBehavior)) := by
    rw [stopFaults, multiError_foldl_errors]
    rfl
  have hmemErr : ∀ i, i < mgr.services.length →
      ∀ e, stopResult ((mgr.services.getD i default).stopBehavior) = some e →
        e ∈ (stopFaults mgr.services arrival).errors := by
    intro i hi e he
    rw [herrs]
    exact List.mem_filterMap.mpr ⟨i, hmemArr i hi, he⟩
  refine ⟨rfl, herrs, hmemErr, ?_, ?_⟩
  · intro i hi hb
    refine hmemErr i hi _ ?_
    rw [hb]
    rfl
  · show (stopFaults mgr.services arrival).AsError = none ↔ _
    rw [AsError_eq_none_iff, herrs, List.filterMap_eq_nil_iff]
    constructor
    · intro h i hi
      exact h i (hmemArr i hi)
    · intro h i hi
      refine h i ?_
      have := hperm.mem_iff.mp hi
      rw [serviceManager.stopSpawnOrder, List.mem_reverse, List.mem_range] at this
      exact this

/-- Witness for C2: one clean stop and one hanging stop yield exactly the
synthetic timeout error in the aggregate. -/
theorem C2_stop_aggregate_witness :
    ("Timed out waiting for service to stop" : Err)
      ∈ (stopFaults stopWitnessMgr.services [1, 0]).errors :=
  (C2_stop_aggregate stopWitnessMgr [1, 0] (List.Perm.refl _)).2.2.2.1 1 (by decide) rfl

/-- In the all-success case the callback loop runs every start in order,
stacks every callback, and the deferred unwind runs them reversed. -/
theorem rtStartLoop_all_ok (smResult : Option Err) :
    ∀ (cbs : List (Option Err)) (i : Nat) (starts stack : List Nat),
      (∀ e ∈ cbs, e = none) →
      rtStartLoop smResult i cbs starts stack =
        ⟨smResult, starts.reverse ++ List.range' i cbs.length,
          (List.range' i cbs.length).reverse ++ stack, true⟩ := by
  intro cbs
  induction cbs with
  | nil =>
    intro i starts stack h
    simp [rtStartLoop]
  | cons e rest ih =>
    intro i starts stack h
    have he : e = none := h e (List.mem_cons_self e rest)
    subst he
    have step : rtStartLoop smResult i (none :: rest) starts stack
        = rtStartLoop smResult (i + 1) rest (i :: starts) (i :: stack) := rfl
    rw [step, ih (i + 1) (i :: starts) (i :: stack) (fun x hx => h x (List.mem_cons_of_mem _ hx))]
    simp [List.range'_succ, List.append_assoc]

/-- When the first failing callback sits at position `k`, the loop runs the
starts up to and including `k`, never reaches the rest, and the deferred
unwind runs exactly the first `k` callbacks reversed. -/
theorem rtStartLoop_first_fail (smResult : Option Err) :
    ∀ (cbs : List (Option Err)) (k i : Nat) (starts stack : List Nat) (err : Err),
      cbs.take k = List.replicate k none →
      cbs.getD k none = some err →
      rtStartLoop smResult i cbs starts stack =
        ⟨some err, starts.reverse ++ List.range' i (k + 1),
          (List.range' i k).reverse ++ stack, false⟩ := by
  intro cbs
  induction cbs with
  | nil =>
    intro k i starts stack err htake hget
    simp [List.getD] at hget
  | cons e rest ih =>
    intro k i starts stack err htake hget
    cases k with
    | zero =>
      have he : e = some err := by simpa using hget
      subst he
      show (⟨some err, (i :: starts).reverse, stack, false⟩ : RTStartRun) = _
      simp [List.range'_succ]
    | succ k =>
      rw [List.take_succ_cons, List.replicate_succ, List.cons.injEq] at htake
      obtain ⟨he, htake'⟩ := htake
      subst he
      rw [List.getD_cons_succ] at hget
      have step : rtStartLoop smResult i (none :: rest) starts stack
          = rtStartLoop smResult (i + 1) rest (i :: starts) (i :: stack) := rfl
      rw [step, ih k (i + 1) (i :: starts) (i :: stack) err htake' hget]
      simp [List.range'_succ, List.append_assoc]

/-- Claim C3: `runtime.Start` runs callback starts in registration order;
when all succeed it delegates to `serviceManager.Start` and afterwards
unwinds the whole success stack in reverse order; when the callback at
position `k` is the first to fail, the starts after it never run, the first
`k` stops are unwound most-recently-pushed first, the failing error is
returned and `serviceManager.Start` is never invoked. -/
theorem C3_runtime_start (cbs : List (Option Err)) (smResult : Option Err) :
    ((∀ e ∈ cbs, e = none) →
      runtime.Start ⟨cbs⟩ smResult =
        ⟨smResult, List.range cbs.length, (List.range cbs.length).reverse, true⟩) ∧
    (∀ k err, cbs.take k = List.replicate k none → cbs.getD k none = some err →
      runtime.Start ⟨cbs⟩ smResult =
        ⟨some err, List.range (k + 1), (List.range k).reverse, false⟩) := by
  constructor
  · intro h
    show rtStartLoop smResult 0 cbs [] [] = _
    rw [rtStartLoop_all_ok smResult cbs 0 [] [] h]
    simp [List.range_eq_range']
  · intro k err htake hget
    show rtStartLoop smResult 0 cbs [] [] = _
    rw [rtStartLoop_first_fail smResult cbs k 0 [] [] err htake hget]
    simp [List.range_eq_range']

/-- Witness for C3, the spec's own example: callbacks [c1, c2, c3] where c2's
start fails: c1 and c2 start, only c1's stop is unwound, c3 and the service
manager are never invoked, and c2's error is returned. -/
theorem C3_runtime_start_witness :
    runtime.Start ⟨[none, some "c2boom", none]⟩ none
      = ⟨some "c2boom", [0, 1], [0], false⟩ :=
  (C3_runtime_start [none, some "c2boom", none] none).2 1 "c2boom" rfl rfl

/-- The aggregate built by the reload loop collects, in registry order, the
errors of exactly the reloadable units. -/
theorem reloadLoop_errors :
    ∀ (svcs : List Service) (i : Nat) (m : multiError),
      ((reloadLoop i svcs m).1).errors
        = m.errors ++ svcs.filterMap (fun s => s.reloadable.bind id) := by
  intro svcs
  induction svcs with
  | nil =>
    intro i m
    simp [reloadLoop]
  | cons s rest ih =>
    intro i m
    cases hr : s.reloadable with
    | none =>
      have step : reloadLoop i (s :: rest) m = reloadLoop (i + 1) rest m := by
        simp [reloadLoop, hr]
      rw [step, ih]
      simp [List.filterMap_cons, hr]
    | some r =>
      have step : (reloadLoop i (s :: rest) m).1 = (reloadLoop (i + 1) rest (m.AddError r)).1 := by
        simp [reloadLoop, hr]
      rw [step, ih]
      cases r <;> simp [multiError.AddError, List.filterMap_cons, hr]

/-- Every reloadable unit's index appears among the invoked indices of the
reload loop, regardless of earlier failures. -/
theorem reloadLoop_invoked :
    ∀ (svcs : List Service) (i : Nat) (m : multiError) (j : Nat),
      j < svcs.length → ((svcs.getD j default).reloadable).isSome = true →
      i + j ∈ (reloadLoop i svcs m).2 := by
  intro svcs
  induction svcs with
  | nil =>
    intro i m j hj _
    simp at hj
  | cons s rest ih =>
    intro i m j hj hsome
    cases j with
    | zero =>
      have hs : s.reloadable.isSome = true := by simpa using hsome
      obtain ⟨r, hr⟩ := Option.isSome_iff_exists.mp hs
      have step : (reloadLoop i (s :: rest) m).2
          = i :: (reloadLoop (i + 1) rest (m.AddError r)).2 := by
        simp [reloadLoop, hr]
      rw [step]
      simp
    | succ j =>
      have hj' : j < rest.length := by simpa using hj
      have hsome' : ((rest.getD j default).reloadable).isSome = true := by
        simpa [List.getD_cons_succ] using hsome
      have harith : i + (j + 1) = (i + 1) + j := by omega
      cases hr : s.reloadable with
      | none =>
        have step : (reloadLoop i (s :: rest) m).2 = (reloadLoop (i + 1) rest m).2 := by
          simp [reloadLoop, hr]
        rw [step, harith]
        exact ih (i + 1) m j hj' hsome'
      | some r =>
        have step : (reloadLoop i (s :: rest) m).2
            = i :: (reloadLoop (i + 1) rest (m.AddError r)).2 := by
          simp [reloadLoop, hr]
        rw [step, harith]
        exact List.mem_cons_of_mem _ (ih (i + 1) (m.AddError r) j hj' hsome')

/-- Claim C6: `Reload` aborts with the config reload error without invoking
any unit; otherwise the errors of exactly the reloadable units are collected
in order, every reloadable unit is invoked regardless of earlier failures,
and the aggregate is nil exactly when no reloadable unit errored. -/
theorem C6_reload (mgr : serviceManager) (configErr : Option Err) :
    (∀ e, configErr = some e →
        mgr.Reload configErr = some e ∧ mgr.reloadInvoked configErr = []) ∧
    (configErr = none →
      ((reloadLoop 0 mgr.services ⟨[]⟩).1.errors
          = mgr.services.filterMap (fun s => s.reloadable.bind id)) ∧
      (∀ j, j < mgr.services.length →
          ((mgr.services.getD j default).reloadable).isSome = true →
          j ∈ mgr.reloadInvoked configErr) ∧
      (mgr.Reload configErr = none ↔
          ∀ s ∈ mgr.services, s.reloadable.bind id = none)) := by
  constructor
  · intro e he
    subst he
    exact ⟨rfl, rfl⟩
  · intro h
    subst h
    refine ⟨?_, ?_, ?_⟩
    · rw [reloadLoop_errors]
      rfl
    · intro j hj hsome
      have := reloadLoop_invoked mgr.services 0 ⟨[]⟩ j hj hsome
      simpa [serviceManager.reloadInvoked] using this
    · show ((reloadLoop 0 mgr.services ⟨[]⟩).1).AsError = none ↔ _
      rw [AsError_eq_none_iff, reloadLoop_errors]
      simp [List.filterMap_eq_nil_iff]

/-- Witness for C6, the spec's own example: five reloadable units of which
exactly two fail: the aggregate holds both messages and all five reloads are
invoked. -/
theorem C6_reload_witness :
    (reloadLoop 0 fiveReloadMgr.services ⟨[]⟩).1.errors = ["e1", "e2"] ∧
    0 ∈ fiveReloadMgr.reloadInvoked none ∧
    1 ∈ fiveReloadMgr.reloadInvoked none ∧
    2 ∈ fiveReloadMgr.reloadInvoked none ∧
    3 ∈ fiveReloadMgr.reloadInvoked none ∧
    4 ∈ fiveReloadMgr.reloadInvoked none := by
  have h := (C6_reload fiveReloadMgr none).2 rfl
  refine ⟨?_, ?_, ?_, ?_, ?_, ?_⟩
  · rw [h.1]
    rfl
  · exact h.2.1 0 (by decide) rfl
  · exact h.2.1 1 (by decide) rfl
  · exact h.2.1 2 (by decide) rfl
  · exact h.2.1 3 (by decide) rfl
  · exact h.2.1 4 (by decide) rfl

/-- Claim C7: `Start` on an empty registry fails at once with the setup error
and spawns no unit-task. -/
theorem C7_empty_registry (sched : List Nat) :
    serviceManager.Start ⟨[]⟩ sched =
      ⟨some "No services were registered", [], [], [], []⟩ := rfl

/-- Claim C1, failing input: with two units whose `Start` both fail and the
first unit reporting first, `Start` returns the first error after closing the
fail channel; the second unit-task is still running and, on failing, sends on
that closed channel, which panics instead of continuing independently. -/
theorem C1_close_fail_panics_second_failure :
    (twoFailingMgr.Start [0, 1]).result = some "boom1" ∧
    (twoFailingMgr.Start [0, 1]).consumed = [0] ∧
    (twoFailingMgr.Start [0, 1]).continued = [] ∧
    (twoFailingMgr.Start [0, 1]).panicked = [1] :=
  ⟨rfl, rfl, rfl, rfl⟩

/-- Claim C8: a terminate-class signal triggers `Stop` and ends signal
handling; a reload signal triggers `Reload`, plus `Stop` exactly when the
reload errored; `Run` returns the bootstrap error, logs it when non-nil, and
deregisters signal handling on the way out. -/
theorem C8_runtime_run (bootErr : Option Err) (sigs rest : List SigEvent) (e : Err) :
    (runtime.Run bootErr sigs).result = bootErr ∧
    (runtime.Run bootErr sigs).loggedError = bootErr.isSome ∧
    (runtime.Run bootErr sigs).deregistered = true ∧
    (runtime.Run bootErr sigs).actions = signalLoop sigs ∧
    signalLoop (SigEvent.interrupt :: rest) = [SigAction.stopAll] ∧
    signalLoop (SigEvent.terminate :: rest) = [SigAction.stopAll] ∧
    signalLoop (SigEvent.hangup (some e) :: rest)
      = SigAction.reloadAll :: SigAction.stopAll :: signalLoop rest ∧
    signalLoop (SigEvent.hangup none :: rest) = SigAction.reloadAll :: signalLoop rest :=
  ⟨rfl, rfl, rfl, rfl, rfl, rfl, rfl, rfl⟩

/-- Claim C9: `Name` falls back to "app" exactly when the configured name is
empty, and `Version` falls back to "unreleased" exactly when the configured
version is empty. -/
theorem C9_metadata (c : container) :
    (c.name = "" → c.Name = "app") ∧
    (c.name ≠ "" → c.Name = c.name) ∧
    (c.version = "" → c.Version = "unreleased") ∧
    (c.version ≠ "" → c.Version = c.version) := by
  refine ⟨?_, ?_, ?_, ?_⟩ <;> intro h <;>
    simp [container.Name, container.Version, h]

/-- Witness for C9 at an unset and at a set name/version. -/
theorem C9_metadata_witness :
    container.Name ⟨"", ""⟩ = "app" ∧
    container.Version ⟨"", ""⟩ = "unreleased" ∧
    container.Name ⟨"spreed-app", "1.0"⟩ = "spreed-app" ∧
    container.Version ⟨"spreed-app", "1.0"⟩ = "1.0" :=
  ⟨(C9_metadata ⟨"", ""⟩).1 rfl,
    (C9_metadata ⟨"", ""⟩).2.2.1 rfl,
    (C9_metadata ⟨"spreed-app", "1.0"⟩).2.1 (by decide),
    (C9_metadata ⟨"spreed-app", "1.0"⟩).2.2.2 (by decide)⟩

/-- Claim C10: `Run` with a current runtime is rejected with the
already-running error and an unchanged state; `Stop` with no current runtime
is rejected with the not-running error; otherwise `Stop` clears the slot and
returns the runtime's stop result, and a `Run` on a cleared server is not
rejected by the already-running guard. -/
theorem C10_server_guards (s : server) (cr : Except Err Nat) (rr sr : Option Err) :
    (s.currentRuntime.isSome = true →
        server.Run s cr rr = ⟨s, some "server is already running", true⟩) ∧
    (s.currentRuntime = none →
        server.Stop s sr = (s, some "server is not currently running")) ∧
    (s.currentRuntime.isSome = true →
        (server.Stop s sr).1.currentRuntime = none ∧ (server.Stop s sr).2 = sr) ∧
    (server.Run ⟨none⟩ cr rr).rejectedAlreadyRunning = false := by
  obtain ⟨cur⟩ := s
  refine ⟨?_, ?_, ?_, ?_⟩
  · intro h
    cases cur with
    | none => simp at h
    | some rt => rfl
  · intro h
    cases cur with
    | none => rfl
    | some rt => simp at h
  · intro h
    cases cur with
    | none => simp at h
    | some rt => exact ⟨rfl, rfl⟩
  · cases cr <;> rfl

/-- Witness for C10 at concrete running and idle servers. -/
theorem C10_server_guards_witness :
    server.Run ⟨some 0⟩ (Except.ok 1) none
        = ⟨⟨some 0⟩, some "server is already running", true⟩ ∧
    server.Stop ⟨none⟩ none = (⟨none⟩, some "server is not currently running") ∧
    (server.Stop ⟨some 0⟩ (some "x")).1.currentRuntime = none :=
  ⟨(C10_server_guards ⟨some 0⟩ (Except.ok 1) none none).1 rfl,
    (C10_server_guards ⟨none⟩ (Except.ok 1) none none).2.1 rfl,
    ((C10_server_guards ⟨some 0⟩ (Except.ok 1) none (some "x")).2.2.1 rfl).1⟩

end Phoenix
